import Mathlib

/-!
Verification of the gcp-scheduler-runner orchestration core.

This file gives a shallow embedding, in Lean 4, of the parts of the
repository that the specification's claims are about:

* `src/models.py` — `EndpointConfig.from_config`, `ExecutionResult`
  (`_classify_status`, `from_response`, `from_error`) and
  `ExecutionSummary` (`success`, `has_errors`, `has_warnings`,
  `get_http_status`);
* `src/http_executor.py` — `HTTPExecutor.execute_request`,
  `execute_single_endpoint`, `execute_sequential`, `execute_parallel`
  and `execute`;
* `src/app.py` — the summary construction and the response status of
  the `GET`/`POST` `/execute` handler;
* `src/auth.py` — `APIKeyAuthenticator.validate` and the
  `require_api_key` decorator.

Modelling conventions:

* Dynamically-typed Python values (endpoint descriptors, bodies,
  payloads) are modelled by the inductive `PyVal` covering the JSON-ish
  value universe the code manipulates (`str`, `int`, `bool`, `dict`,
  `list`, `None`).
* Python exceptions that the code distinguishes are the inductive
  `PyExc`; a function that can let an exception escape returns
  `Except PyExc α`, and `.error` means the exception propagated past
  the modelled boundary.  Exception messages are modelled without
  Python's quoting punctuation (e.g. the `<class 'int'>` wrapper in the
  `ValueError` text is rendered as the bare type name `int`).
* The outbound HTTP call `requests.request(...)` is abstracted by a
  transport oracle `net : HttpRequest → TransportOutcome`: the oracle
  yields either a response — its status code together with the
  already-parsed body, absorbing the `response.json()`/text fallback of
  `ExecutionResult.from_response` — or a `requests` transport failure
  (`requests.exceptions.RequestException`) with its message.
* Thread scheduling in `execute_parallel` is abstracted by a completion
  order `order : List Nat`, the order in which `as_completed` yields the
  finished futures; theorems about parallel mode hold for every
  permutation of the endpoint indices.
* Wall-clock timestamps (`datetime.now().isoformat()`) and the
  serialized `results`/`details`/`email_notification` fields of the
  summary are not modelled: no claim in scope depends on them.
-/

namespace SchedulerRunner

/-- Execution status classification (`models.py`, `ExecutionStatus`). -/
inductive ExecutionStatus
  | SUCCESS
  | WARNING
  | ERROR
deriving DecidableEq, Repr

/-- A dynamically-typed Python value, restricted to the JSON-ish universe the
endpoint configuration code manipulates. -/
inductive PyVal
  | str : String → PyVal
  | int : Int → PyVal
  | bool : Bool → PyVal
  | dict : List (String × PyVal) → PyVal
  | list : List PyVal → PyVal
  | none : PyVal

/-- Python truthiness (`bool(v)`) for the modelled value universe. -/
def PyVal.truthy : PyVal → Bool
  | .str s => !(s == "")
  | .int n => !(n == 0)
  | .bool b => b
  | .dict d => !d.isEmpty
  | .list l => !l.isEmpty
  | .none => false

/-- Python `v is None` test. -/
def PyVal.isNone : PyVal → Bool
  | .none => true
  | _ => false

/-- Python `isinstance(v, dict)` test. -/
def PyVal.isDict : PyVal → Bool
  | .dict _ => true
  | _ => false

/-- Python `isinstance(v, str)` test. -/
def PyVal.isStr : PyVal → Bool
  | .str _ => true
  | _ => false

/-- The Python type name of a value, as used in error messages (the
`<class '...'>` quoting of `str(type(v))` is dropped). -/
def PyVal.typeName : PyVal → String
  | .str _ => "str"
  | .int _ => "int"
  | .bool _ => "bool"
  | .dict _ => "dict"
  | .list _ => "list"
  | .none => "NoneType"

/-- Python `str.upper()`, modelled character-wise with `Char.toUpper`
(the method names the code upper-cases are plain ASCII). -/
def pyUpper (s : String) : String :=
  String.mk (s.data.map Char.toUpper)

/-- Python `d.get(k)` on a dict: `Option.none` when the key is missing
(which Python renders as `None`); note that a key explicitly bound to
`None` yields `some PyVal.none` — both spell `None` in Python. -/
def dictGet (d : List (String × PyVal)) (k : String) : Option PyVal :=
  (d.find? (fun p => p.1 == k)).map Prod.snd

/-- Python `d.get(k, default)` on a dict. -/
def dictGetD (d : List (String × PyVal)) (k : String) (default : PyVal) : PyVal :=
  match dictGet d k with
  | Option.some v => v
  | Option.none => default

/-- The Python exceptions the modelled code distinguishes.
`valueError` is raised by `EndpointConfig.from_config` for an unsupported
descriptor type; `attributeError` is raised by `.upper()` on a non-string
`method` field; `requestException` stands for
`requests.exceptions.RequestException` from the transport. -/
inductive PyExc
  | valueError : String → PyExc
  | attributeError : String → PyExc
  | requestException : String → PyExc

/-- Configuration for a single endpoint execution (`models.py`,
`EndpointConfig`).  Fields other than `method` keep the dynamic `PyVal`
type because `from_config` copies them from the raw descriptor without
validation; `method` is a `String` because every constructed config holds
either the `"POST"` default or the result of `.upper()` on a string. -/
structure EndpointConfig where
  url : PyVal
  method : String
  headers : PyVal
  body : PyVal
  json_data : PyVal
  params : PyVal
  timeout : PyVal

/-- `EndpointConfig.from_config` (`models.py` lines 46-71).

A string descriptor becomes a config with the `"POST"` method and the
dataclass defaults.  A dict descriptor copies `url`, `headers`, `body`,
`json`, `params` and `timeout` with their defaults and upper-cases
`method`; if the `method` value is present but not a string, the call
`config.get("method", "POST").upper()` raises `AttributeError`, which
`from_config` does not catch.  Any other descriptor type raises
`ValueError`. -/
def EndpointConfig.from_config (config : PyVal) : Except PyExc EndpointConfig :=
  match config with
  | .str s =>
    .ok ⟨.str s, "POST", .dict [], .none, .none, .dict [], .int 30⟩
  | .dict d =>
    match dictGetD d "method" (.str "POST") with
    | .str m =>
      .ok ⟨dictGetD d "url" .none, pyUpper m, dictGetD d "headers" (.dict []),
           dictGetD d "body" .none, dictGetD d "json" .none,
           dictGetD d "params" (.dict []), dictGetD d "timeout" (.int 30)⟩
    | v => .error (.attributeError (v.typeName ++ " object has no attribute upper"))
  | other => .error (.valueError ("Invalid endpoint configuration type: " ++ other.typeName))

/-- `ExecutionResult._classify_status` (`models.py` lines 141-156): `207`
is checked before the 2xx range, so it classifies as `WARNING`. -/
def ExecutionResult.classify_status (status_code : Int) : ExecutionStatus :=
  if status_code = 207 then .WARNING
  else if 200 ≤ status_code ∧ status_code < 300 then .SUCCESS
  else .ERROR

/-- Result of a single endpoint execution (`models.py`, `ExecutionResult`);
the wall-clock `timestamp` field is not modelled. -/
structure ExecutionResult where
  endpoint : PyVal
  method : String
  status_code : Int
  response : PyVal
  error : Option String
  status : ExecutionStatus

/-- `ExecutionResult.from_error` (`models.py` lines 99-109). -/
def ExecutionResult.from_error (endpoint : PyVal) (error_message : String) : ExecutionResult :=
  { endpoint := endpoint, method := "UNKNOWN", status_code := 0, response := .none,
    error := Option.some error_message, status := .ERROR }

/-- `ExecutionResult.from_response` (`models.py` lines 111-139).  The
`response.json()`/text fallback is absorbed into the oracle-provided
`response_data`; the status is classified and an `HTTP <code>` error
message is attached exactly when the classification is `ERROR`. -/
def ExecutionResult.from_response (endpoint : PyVal) (method : String)
    (status_code : Int) (response_data : PyVal) : ExecutionResult :=
  { endpoint := endpoint, method := method, status_code := status_code,
    response := response_data,
    error :=
      if ExecutionResult.classify_status status_code = .ERROR then
        Option.some ("HTTP " ++ toString status_code)
      else Option.none,
    status := ExecutionResult.classify_status status_code }

/-- The explicit argument record handed to `requests.request` by
`HTTPExecutor.execute_request` (`http_executor.py` lines 49-71): the
resolved body is sent as the `json` argument when it is a dict and as the
raw `data` argument otherwise. -/
structure HttpRequest where
  method : String
  url : PyVal
  headers : PyVal
  params : PyVal
  timeout : PyVal
  json_arg : PyVal
  data_arg : PyVal

/-- Outcome of one outbound HTTP call, as seen through the transport
oracle: either a response (status code plus already-parsed body) or a
`requests.exceptions.RequestException` with its message. -/
inductive TransportOutcome
  | response : Int → PyVal → TransportOutcome
  | failure : String → TransportOutcome

/-- The body-selection logic of `HTTPExecutor.execute_request`
(`http_executor.py` lines 44-47): `body = endpoint_config.json_data or
endpoint_config.body`, then `if body is None and default_payload: body =
default_payload`.  Python's `or` returns its left operand when truthy, so
a truthy `json` field wins over `body`. -/
def HTTPExecutor.resolve_body (endpoint_config : EndpointConfig)
    (default_payload : PyVal) : PyVal :=
  let body := if endpoint_config.json_data.truthy then endpoint_config.json_data
              else endpoint_config.body
  if body.isNone && default_payload.truthy then default_payload else body

/-- `HTTPExecutor.execute_request` (`http_executor.py` lines 31-71), up to
the point where the prepared arguments are handed to `requests.request`. -/
def HTTPExecutor.execute_request (endpoint_config : EndpointConfig)
    (default_payload : PyVal) : HttpRequest :=
  let body := HTTPExecutor.resolve_body endpoint_config default_payload
  { method := endpoint_config.method, url := endpoint_config.url,
    headers := endpoint_config.headers, params := endpoint_config.params,
    timeout := endpoint_config.timeout,
    json_arg := if !body.isNone && body.isDict then body else .none,
    data_arg := if !body.isNone && !body.isDict then body else .none }

/-- `HTTPExecutor.execute_single_endpoint` (`http_executor.py` lines
73-110).  Only `requests.exceptions.RequestException` and `ValueError`
are caught and turned into an `ERROR` result; any other exception (such
as the `AttributeError` raised by `from_config` on a non-string `method`
field) propagates past the boundary, modelled by `.error`.  When the
caught exception is the `ValueError` from `from_config`, `endpoint_name`
is still `None`, so the positional fallback name is always used; when the
transport fails after a successful parse, the fallback is used exactly
when the parsed `url` is falsy (`endpoint_name or f"endpoint_{...}"`). -/
def HTTPExecutor.execute_single_endpoint (net : HttpRequest → TransportOutcome)
    (endpoint_idx : Nat) (endpoint_config_raw : PyVal) (default_payload : PyVal) :
    Except PyExc (ExecutionStatus × ExecutionResult) :=
  match EndpointConfig.from_config endpoint_config_raw with
  | .error (PyExc.valueError msg) =>
    .ok (.ERROR, ExecutionResult.from_error
          (.str ("endpoint_" ++ toString endpoint_idx)) msg)
  | .error exc => .error exc
  | .ok endpoint_config =>
    match net (HTTPExecutor.execute_request endpoint_config default_payload) with
    | .response code body =>
      let result := ExecutionResult.from_response endpoint_config.url
                      endpoint_config.method code body
      .ok (result.status, result)
    | .failure msg =>
      .ok (.ERROR, ExecutionResult.from_error
            (if endpoint_config.url.truthy then endpoint_config.url
             else .str ("endpoint_" ++ toString endpoint_idx)) msg)

/-- The loop body of `HTTPExecutor.execute_sequential` (`http_executor.py`
lines 150-180), with the running endpoint index made explicit: each result
is appended to the bucket selected by the status returned alongside it; an
escaped exception aborts the loop and propagates. -/
def HTTPExecutor.execute_sequential_go (net : HttpRequest → TransportOutcome)
    (default_payload : PyVal) :
    Nat → List PyVal →
      Except PyExc (List ExecutionResult × List ExecutionResult × List ExecutionResult)
  | _, [] => .ok ([], [], [])
  | idx, c :: rest =>
    match HTTPExecutor.execute_single_endpoint net idx c default_payload with
    | .error exc => .error exc
    | .ok (st, r) =>
      match HTTPExecutor.execute_sequential_go net default_payload (idx + 1) rest with
      | .error exc => .error exc
      | .ok (s, w, e) =>
        match st with
        | .SUCCESS => .ok (r :: s, w, e)
        | .WARNING => .ok (s, r :: w, e)
        | .ERROR => .ok (s, w, r :: e)

/-- `HTTPExecutor.execute_sequential` (`http_executor.py` lines 150-180):
endpoints run one by one, in input order, starting at index `0`. -/
def HTTPExecutor.execute_sequential (net : HttpRequest → TransportOutcome)
    (endpoints : List PyVal) (default_payload : PyVal) :
    Except PyExc (List ExecutionResult × List ExecutionResult × List ExecutionResult) :=
  HTTPExecutor.execute_sequential_go net default_payload 0 endpoints

/-- The collection loop of `HTTPExecutor.execute_parallel`
(`http_executor.py` lines 112-148): futures are consumed in the completion
order given by `order` (a permutation of the endpoint indices); each
task's result is appended to the bucket selected by its status, and an
exception re-raised by `future.result()` propagates.  An index outside the
endpoint list — impossible for a true permutation of the indices — is
skipped. -/
def HTTPExecutor.execute_parallel_go (net : HttpRequest → TransportOutcome)
    (default_payload : PyVal) (endpoints : List PyVal) :
    List Nat →
      Except PyExc (List ExecutionResult × List ExecutionResult × List ExecutionResult)
  | [] => .ok ([], [], [])
  | idx :: rest =>
    match endpoints[idx]? with
    | Option.none => HTTPExecutor.execute_parallel_go net default_payload endpoints rest
    | Option.some c =>
      match HTTPExecutor.execute_single_endpoint net idx c default_payload with
      | .error exc => .error exc
      | .ok (st, r) =>
        match HTTPExecutor.execute_parallel_go net default_payload endpoints rest with
        | .error exc => .error exc
        | .ok (s, w, e) =>
          match st with
          | .SUCCESS => .ok (r :: s, w, e)
          | .WARNING => .ok (s, r :: w, e)
          | .ERROR => .ok (s, w, r :: e)

/-- `HTTPExecutor.execute_parallel` (`http_executor.py` lines 112-148),
with thread scheduling abstracted by the completion order `order`. -/
def HTTPExecutor.execute_parallel (net : HttpRequest → TransportOutcome)
    (order : List Nat) (endpoints : List PyVal) (default_payload : PyVal) :
    Except PyExc (List ExecutionResult × List ExecutionResult × List ExecutionResult) :=
  HTTPExecutor.execute_parallel_go net default_payload endpoints order

/-- `HTTPExecutor.execute` (`http_executor.py` lines 182-200): sequential
mode is used when `parallel` is false or there is at most one endpoint. -/
def HTTPExecutor.execute (net : HttpRequest → TransportOutcome) (order : List Nat)
    (endpoints : List PyVal) (parallel : Bool) (default_payload : PyVal) :
    Except PyExc (List ExecutionResult × List ExecutionResult × List ExecutionResult) :=
  if parallel = false ∨ endpoints.length ≤ 1 then
    HTTPExecutor.execute_sequential net endpoints default_payload
  else
    HTTPExecutor.execute_parallel net order endpoints default_payload

/-- Summary of multiple endpoint executions (`models.py`,
`ExecutionSummary`); the serialized `results`/`details` lists, the
timestamp and the email-notification record are not modelled. -/
structure ExecutionSummary where
  total_endpoints : Nat
  successful : Nat
  warnings : Nat
  failed : Nat
  execution_mode : String
deriving DecidableEq, Repr

/-- `ExecutionSummary.success` (`models.py` lines 179-182). -/
def ExecutionSummary.success (s : ExecutionSummary) : Bool :=
  s.failed == 0 && s.warnings == 0

/-- `ExecutionSummary.has_errors` (`models.py` lines 184-187). -/
def ExecutionSummary.has_errors (s : ExecutionSummary) : Bool :=
  decide (0 < s.failed)

/-- `ExecutionSummary.has_warnings` (`models.py` lines 189-192). -/
def ExecutionSummary.has_warnings (s : ExecutionSummary) : Bool :=
  decide (0 < s.warnings)

/-- `ExecutionSummary.get_http_status` (`models.py` lines 194-205). -/
def ExecutionSummary.get_http_status (s : ExecutionSummary) : Int :=
  if s.has_errors then 500
  else if s.has_warnings then 207
  else 200

/-- The `ExecutionSummary` constructed by the `POST /execute` handler
(`app.py` lines 243-256) from the executor's three buckets. -/
def build_summary (endpoints : List PyVal) (parallel : Bool)
    (successes warnings errors : List ExecutionResult) : ExecutionSummary :=
  { total_endpoints := endpoints.length,
    successful := successes.length,
    warnings := warnings.length,
    failed := errors.length,
    execution_mode :=
      if parallel = true ∧ 1 < endpoints.length then "parallel" else "sequential" }

/-- The `POST /execute` handler (`app.py` lines 217-269), from the point
where the endpoint list is known: it runs the executor, builds the
summary, and responds with `summary.get_http_status()`.  This path has no
exception handler around the executor, so an escaped exception
propagates. -/
def execute_endpoints_post (net : HttpRequest → TransportOutcome) (order : List Nat)
    (endpoints : List PyVal) (parallel : Bool) (default_payload : PyVal) :
    Except PyExc (ExecutionSummary × Int) :=
  match HTTPExecutor.execute net order endpoints parallel default_payload with
  | .error exc => .error exc
  | .ok (s, w, e) =>
    let summary := build_summary endpoints parallel s w e
    .ok (summary, summary.get_http_status)

/-- The `GET /execute` handler (`app.py` lines 145-215), from the point
where the endpoint list is known, reduced to the pair (HTTP status of the
response, `success` field of the payload).  With no endpoints it answers
`200` with `success = false`; otherwise it runs the executor sequentially,
answers `500` when the error bucket is non-empty and `200` otherwise
— warnings never influence the GET status — and sets `success` to
`failed == 0`.  An executor exception is caught by the broad `except` and
answered as `500`/`false`. -/
def execute_endpoints_get (net : HttpRequest → TransportOutcome)
    (endpoints : List PyVal) : Int × Bool :=
  if endpoints.length = 0 then (200, false)
  else
    match HTTPExecutor.execute net [] endpoints false .none with
    | .error _ => (500, false)
    | .ok (_, _, e) => (if e.length = 0 then 200 else 500, e.length == 0)

/-- The `max_workers` value computed by the `POST /execute` handler
(`app.py` line 234): `data.get("max_workers", min(10, len(endpoints) or
1))` — the default is `min(10, count or 1)`, and a caller-supplied value
is used as is. -/
def post_max_workers (requested : Option Nat) (endpoint_count : Nat) : Nat :=
  match requested with
  | Option.some w => w
  | Option.none => min 10 (if endpoint_count = 0 then 1 else endpoint_count)

/-- The pool size of the `ThreadPoolExecutor` created by
`HTTPExecutor.execute_parallel` (`http_executor.py` line 131):
`self.max_workers` is passed through unchanged, with no clamping to the
endpoint count. -/
def HTTPExecutor.thread_pool_size (max_workers : Nat) : Nat :=
  max_workers

/-- Outcome of `APIKeyAuthenticator.validate` (`auth.py` lines 40-62):
either the check passes, or an `AuthenticationError` carrying a message
and an HTTP status code is raised. -/
inductive ValidationOutcome
  | passed
  | authError : String → Int → ValidationOutcome
deriving DecidableEq, Repr

/-- `APIKeyAuthenticator` (`auth.py` lines 24-38): `api_key = none` models
the Python `None`, for which `is_enabled` is false. -/
structure APIKeyAuthenticator where
  api_key : Option String
deriving DecidableEq, Repr

/-- `APIKeyAuthenticator.is_enabled` (`auth.py` line 38). -/
def APIKeyAuthenticator.is_enabled (a : APIKeyAuthenticator) : Bool :=
  a.api_key.isSome

/-- `APIKeyAuthenticator.validate` (`auth.py` lines 40-62).  The header
value is `Option.none` when the `X-API-Key` header is absent; Python's
`if not provided_key` is falsy both for `None` and for the empty string,
so an empty header is rejected with `401`, before the `403` comparison. -/
def APIKeyAuthenticator.validate (a : APIKeyAuthenticator)
    (provided_key : Option String) : ValidationOutcome :=
  if a.is_enabled = false then .passed
  else if (provided_key.getD "").isEmpty then
    .authError "Missing X-API-Key header. This endpoint requires authentication." 401
  else if provided_key ≠ a.api_key then
    .authError "Invalid X-API-Key. The provided API key is not valid." 403
  else .passed

/-- Outcome of a request to a route wrapped by `require_api_key`:
either the protected handler runs, or the decorator answers with the
authentication error message and status code. -/
inductive RouteResponse
  | handler
  | rejected : String → Int → RouteResponse
deriving DecidableEq, Repr

/-- The `require_api_key` decorator (`auth.py` lines 71-123): in testing
mode the literal key `"test-api-key-123"` short-circuits to the handler
before the authenticator is consulted; otherwise `validate` decides, and
an `AuthenticationError` becomes a JSON rejection with its message and
status code. -/
def require_api_key (testing : Bool) (config_api_key : Option String)
    (provided_key : Option String) : RouteResponse :=
  if testing = true ∧ provided_key = Option.some "test-api-key-123" then .handler
  else
    match APIKeyAuthenticator.validate ⟨config_api_key⟩ provided_key with
    | .passed => .handler
    | .authError msg code => .rejected msg code

/-! ### Statement helpers

The following definitions are not source code; they are the vehicles used
to state ordering and partition properties of the executor: the list of
per-endpoint results in traversal order, and the partition of such a list
into the three classification buckets. -/

/-- Boolean test that a result carries the given classification. -/
def hasStatus (st : ExecutionStatus) (r : ExecutionResult) : Bool :=
  decide (r.status = st)

/-- The per-endpoint results of a sequential run, in input order (one
result per descriptor, starting at index `idx`); an escaped exception
aborts the run. -/
def sequential_results (net : HttpRequest → TransportOutcome) (default_payload : PyVal) :
    Nat → List PyVal → Except PyExc (List ExecutionResult)
  | _, [] => .ok []
  | idx, c :: rest =>
    match HTTPExecutor.execute_single_endpoint net idx c default_payload with
    | .error exc => .error exc
    | .ok (_, r) =>
      match sequential_results net default_payload (idx + 1) rest with
      | .error exc => .error exc
      | .ok rs => .ok (r :: rs)

/-- The per-endpoint results of a parallel run, in the completion order
given by `order`. -/
def parallel_results (net : HttpRequest → TransportOutcome) (default_payload : PyVal)
    (endpoints : List PyVal) : List Nat → Except PyExc (List ExecutionResult)
  | [] => .ok []
  | idx :: rest =>
    match endpoints[idx]? with
    | Option.none => parallel_results net default_payload endpoints rest
    | Option.some c =>
      match HTTPExecutor.execute_single_endpoint net idx c default_payload with
      | .error exc => .error exc
      | .ok (_, r) =>
        match parallel_results net default_payload endpoints rest with
        | .error exc => .error exc
        | .ok rs => .ok (r :: rs)

/-- Partition of an ordered result list into the three classification
buckets, preserving relative order. -/
def bucketize (rs : List ExecutionResult) :
    List ExecutionResult × List ExecutionResult × List ExecutionResult :=
  (rs.filter (hasStatus .SUCCESS), rs.filter (hasStatus .WARNING),
   rs.filter (hasStatus .ERROR))

/-! ### Helper lemmas -/

/-- The status returned alongside a result by `execute_single_endpoint`
is always the result's own classification. -/
theorem execute_single_endpoint_status (net : HttpRequest → TransportOutcome)
    (idx : Nat) (c : PyVal) (dp : PyVal) (st : ExecutionStatus) (r : ExecutionResult)
    (h : HTTPExecutor.execute_single_endpoint net idx c dp = .ok (st, r)) :
    r.status = st := by
  unfold HTTPExecutor.execute_single_endpoint at h
  split at h
  · simp only [Except.ok.injEq, Prod.mk.injEq] at h
    obtain ⟨hst, hr⟩ := h
    subst hst; subst hr; rfl
  · simp at h
  · split at h
    · simp only [Except.ok.injEq, Prod.mk.injEq] at h
      obtain ⟨hst, hr⟩ := h
      subst hst; subst hr; rfl
    · simp only [Except.ok.injEq, Prod.mk.injEq] at h
      obtain ⟨hst, hr⟩ := h
      subst hst; subst hr; rfl

/-- The sequential executor's buckets are exactly the classification
partition of the input-order result list. -/
theorem execute_sequential_go_eq (net : HttpRequest → TransportOutcome) (dp : PyVal) :
    ∀ (l : List PyVal) (idx : Nat),
      HTTPExecutor.execute_sequential_go net dp idx l =
        (sequential_results net dp idx l).map bucketize := by
  intro l
  induction l with
  | nil => intro idx; rfl
  | cons c rest ih =>
    intro idx
    unfold HTTPExecutor.execute_sequential_go sequential_results
    rw [ih (idx + 1)]
    cases hc : HTTPExecutor.execute_single_endpoint net idx c dp with
    | error exc => simp [hc, Except.map]
    | ok p =>
      obtain ⟨st, r⟩ := p
      have hst := execute_single_endpoint_status net idx c dp st r hc
      cases hs : sequential_results net dp (idx + 1) rest with
      | error exc => simp [hc, hs, Except.map]
      | ok rs =>
        cases st <;>
          simp [hc, hs, Except.map, bucketize, List.filter_cons, hasStatus, hst]

/-- The parallel executor's buckets are exactly the classification
partition of the completion-order result list. -/
theorem execute_parallel_go_eq (net : HttpRequest → TransportOutcome) (dp : PyVal)
    (endpoints : List PyVal) :
    ∀ (order : List Nat),
      HTTPExecutor.execute_parallel_go net dp endpoints order =
        (parallel_results net dp endpoints order).map bucketize := by
  intro order
  induction order with
  | nil => rfl
  | cons idx rest ih =>
    unfold HTTPExecutor.execute_parallel_go parallel_results
    rw [ih]
    cases hl : endpoints[idx]? with
    | none => simp [hl]
    | some c =>
      cases hc : HTTPExecutor.execute_single_endpoint net idx c dp with
      | error exc => simp [hl, hc, Except.map]
      | ok p =>
        obtain ⟨st, r⟩ := p
        have hst := execute_single_endpoint_status net idx c dp st r hc
        cases hs : parallel_results net dp endpoints rest with
        | error exc => simp [hl, hc, hs, Except.map]
        | ok rs =>
          cases st <;>
            simp [hl, hc, hs, Except.map, bucketize, List.filter_cons, hasStatus, hst]

/-- A sequential run that completes yields one result per descriptor. -/
theorem sequential_results_length (net : HttpRequest → TransportOutcome) (dp : PyVal) :
    ∀ (l : List PyVal) (idx : Nat) (rs : List ExecutionResult),
      sequential_results net dp idx l = .ok rs → rs.length = l.length := by
  intro l
  induction l with
  | nil =>
    intro idx rs h
    simp [sequential_results] at h
    simp [← h]
  | cons c rest ih =>
    intro idx rs h
    unfold sequential_results at h
    cases hc : HTTPExecutor.execute_single_endpoint net idx c dp with
    | error exc => rw [hc] at h; simp at h
    | ok p =>
      obtain ⟨st, r⟩ := p
      rw [hc] at h
      cases hs : sequential_results net dp (idx + 1) rest with
      | error exc => rw [hs] at h; simp at h
      | ok rs' =>
        rw [hs] at h
        simp only [Except.ok.injEq] at h
        subst h
        simp [ih (idx + 1) rs' hs]

/-- A parallel run over in-range indices that completes yields one result
per index. -/
theorem parallel_results_length (net : HttpRequest → TransportOutcome) (dp : PyVal)
    (endpoints : List PyVal) :
    ∀ (order : List Nat) (rs : List ExecutionResult),
      (∀ i ∈ order, i < endpoints.length) →
      parallel_results net dp endpoints order = .ok rs → rs.length = order.length := by
  intro order
  induction order with
  | nil =>
    intro rs _ h
    simp [parallel_results] at h
    simp [← h]
  | cons idx rest ih =>
    intro rs hin h
    have hidx : idx < endpoints.length := hin idx (List.mem_cons_self idx rest)
    unfold parallel_results at h
    cases hl : endpoints[idx]? with
    | none =>
      have hsome := List.getElem?_eq_getElem hidx
      rw [hl] at hsome
      simp at hsome
    | some c =>
      rw [hl] at h
      simp only [] at h
      cases hc : HTTPExecutor.execute_single_endpoint net idx c dp with
      | error exc => simp [hc] at h
      | ok p =>
        obtain ⟨st, r⟩ := p
        cases hs : parallel_results net dp endpoints rest with
        | error exc => simp [hc, hs] at h
        | ok rs' =>
          simp [hc, hs] at h
          subst h
          have := ih rs' (fun i hi => hin i (List.mem_cons_of_mem idx hi)) hs
          simp [this]

/-- The three classification buckets of an ordered result list together
contain every result exactly once. -/
theorem bucketize_length_sum (rs : List ExecutionResult) :
    (rs.filter (hasStatus .SUCCESS)).length + (rs.filter (hasStatus .WARNING)).length +
      (rs.filter (hasStatus .ERROR)).length = rs.length := by
  induction rs with
  | nil => rfl
  | cons r rest ih =>
    cases h : r.status <;> simp [List.filter_cons, hasStatus, h] <;> omega

/-- Every member of a classification bucket carries that bucket's
classification. -/
theorem mem_bucket_status (st : ExecutionStatus) (rs : List ExecutionResult)
    (r : ExecutionResult) (h : r ∈ rs.filter (hasStatus st)) : r.status = st := by
  have := (List.mem_filter.mp h).2
  simpa [hasStatus] using this

/-! ### Claim theorems -/

/-- C2: `_classify_status` returns `WARNING` on exactly `207` (checked
before the 2xx range), `SUCCESS` on the remaining codes in `[200, 299]`,
and `ERROR` on every other integer — in particular on the synthetic `0`
used for transport failure. -/
theorem C2_classify_status (c : Int) :
    ExecutionResult.classify_status 207 = ExecutionStatus.WARNING ∧
    (200 ≤ c → c ≤ 299 → c ≠ 207 →
      ExecutionResult.classify_status c = ExecutionStatus.SUCCESS) ∧
    ((c < 200 ∨ 299 < c) →
      ExecutionResult.classify_status c = ExecutionStatus.ERROR) ∧
    ExecutionResult.classify_status 0 = ExecutionStatus.ERROR := by
  refine ⟨rfl, ?_, ?_, rfl⟩
  · intro h1 h2 h3
    unfold ExecutionResult.classify_status
    rw [if_neg h3, if_pos ⟨h1, by omega⟩]
  · intro h
    rcases h with h | h <;>
      · unfold ExecutionResult.classify_status
        rw [if_neg (by omega : ¬ (c = 207)),
            if_neg (by omega : ¬ (200 ≤ c ∧ c < 300))]

/-- Witness for C2 at the concrete status codes 250 and 404. -/
theorem C2_classify_status_witness :
    ExecutionResult.classify_status 250 = ExecutionStatus.SUCCESS ∧
    ExecutionResult.classify_status 404 = ExecutionStatus.ERROR :=
  ⟨(C2_classify_status 250).2.1 (by norm_num) (by norm_num) (by norm_num),
   (C2_classify_status 404).2.2.1 (Or.inr (by norm_num))⟩

/-- C10: in testing mode the literal key `test-api-key-123` short-circuits
the decorator to the protected handler before the authenticator is
consulted, for every configured secret — including one that differs from
that literal. -/
theorem C10_test_key_bypass (config_api_key : Option String) :
    require_api_key true config_api_key (Option.some "test-api-key-123") =
      RouteResponse.handler := by
  simp [require_api_key]

/-- C5 counterexample: with the secret `"k"` configured and the
`X-API-Key` header present but empty — a supplied credential that differs
from the secret — `validate` rejects with `401`, not the `403` the claim
requires for a present-but-wrong header. -/
theorem C5_counterexample :
    APIKeyAuthenticator.validate ⟨Option.some "k"⟩ (Option.some "") =
      ValidationOutcome.authError
        "Missing X-API-Key header. This endpoint requires authentication." 401 ∧
    "" ≠ "k" := by
  exact ⟨rfl, by decide⟩

/-- C5 amended: with no secret configured every request passes unchanged;
with a secret configured, an absent or empty `X-API-Key` header is
rejected with `401` (Python truthiness treats the empty header as
missing), and a nonempty header that differs from the secret is rejected
with `403`. -/
theorem C5_auth_gate (k p : String) (provided : Option String) :
    APIKeyAuthenticator.validate ⟨Option.none⟩ provided = ValidationOutcome.passed ∧
    APIKeyAuthenticator.validate ⟨Option.some k⟩ Option.none =
      ValidationOutcome.authError
        "Missing X-API-Key header. This endpoint requires authentication." 401 ∧
    APIKeyAuthenticator.validate ⟨Option.some k⟩ (Option.some "") =
      ValidationOutcome.authError
        "Missing X-API-Key header. This endpoint requires authentication." 401 ∧
    (p ≠ "" → p ≠ k →
      APIKeyAuthenticator.validate ⟨Option.some k⟩ (Option.some p) =
        ValidationOutcome.authError
          "Invalid X-API-Key. The provided API key is not valid." 403) := by
  refine ⟨rfl, rfl, rfl, fun hp hk => ?_⟩
  simp [APIKeyAuthenticator.validate, APIKeyAuthenticator.is_enabled,
        String.isEmpty_iff, hp, hk]

/-- Witness for the amended C5 at concrete credentials. -/
theorem C5_auth_gate_witness :
    APIKeyAuthenticator.validate ⟨Option.some "secret"⟩ (Option.some "wrong") =
      ValidationOutcome.authError
        "Invalid X-API-Key. The provided API key is not valid." 403 :=
  (C5_auth_gate "secret" "wrong" Option.none).2.2.2 (by decide) (by decide)

/-- C7 counterexample: `from_config` performs no `url` validation — a
mapping without `url` and a mapping with an empty `url` both construct
successfully instead of failing with `InvalidConfiguration`. -/
theorem C7_counterexample :
    EndpointConfig.from_config (.dict [("method", .str "GET")]) =
      Except.ok ⟨.none, "GET", .dict [], .none, .none, .dict [], .int 30⟩ ∧
    EndpointConfig.from_config (.dict [("url", .str "")]) =
      Except.ok ⟨.str "", "POST", .dict [], .none, .none, .dict [], .int 30⟩ :=
  ⟨rfl, rfl⟩

/-- C7 amended: a descriptor that is neither a string nor a mapping fails
with `ValueError` (`InvalidConfiguration`), but for a mapping the `url`
field is not validated: whenever the `method` field is absent or a string,
construction succeeds and simply copies the possibly missing or empty
`url`; a missing `url` only fails later, at request time, inside the
transport call. -/
theorem C7_no_url_validation (d : List (String × PyVal)) (m : String) (n : Int) :
    (dictGetD d "method" (.str "POST") = .str m →
      EndpointConfig.from_config (.dict d) =
        Except.ok ⟨dictGetD d "url" .none, pyUpper m, dictGetD d "headers" (.dict []),
                   dictGetD d "body" .none, dictGetD d "json" .none,
                   dictGetD d "params" (.dict []), dictGetD d "timeout" (.int 30)⟩) ∧
    EndpointConfig.from_config (.int n) =
      Except.error (.valueError "Invalid endpoint configuration type: int") := by
  constructor
  · intro h
    simp only [EndpointConfig.from_config]
    rw [h]
  · rfl

/-- Witness for the amended C7 at a mapping with an empty `url` and at the
numeric descriptor `12345`. -/
theorem C7_no_url_validation_witness :
    EndpointConfig.from_config (.dict [("url", .str "")]) =
      Except.ok ⟨.str "", pyUpper "POST", .dict [], .none, .none, .dict [], .int 30⟩ ∧
    EndpointConfig.from_config (.int 12345) =
      Except.error (.valueError "Invalid endpoint configuration type: int") :=
  ⟨(C7_no_url_validation [("url", .str "")] "POST" 12345).1 rfl,
   (C7_no_url_validation [("url", .str "")] "POST" 12345).2⟩

/-- C8 counterexample: for a parallel execution of 3 endpoints with a
requested `max_workers` of 50, the `ThreadPoolExecutor` is created with
50 workers, not `min(50, 3) = 3`: the requested value is never clamped to
the endpoint count. -/
theorem C8_counterexample :
    HTTPExecutor.thread_pool_size (post_max_workers (Option.some 50) 3) = 50 ∧
    min 50 3 = 3 ∧ (50 : Nat) ≠ 3 := by
  refine ⟨rfl, rfl, by decide⟩

/-- C8 amended: the worker pool size equals the requested `max_workers`
unchanged; only when the caller supplies none does the handler default it
to `min(10, count or 1)`, which for 2 or more endpoints equals
`min(10, count)`. -/
theorem C8_pool_size (requested : Option Nat) (count : Nat) (h2 : 2 ≤ count) :
    (∀ v, requested = Option.some v →
      HTTPExecutor.thread_pool_size (post_max_workers requested count) = v) ∧
    (requested = Option.none →
      HTTPExecutor.thread_pool_size (post_max_workers requested count) = min 10 count) := by
  constructor
  · intro v hv
    subst hv
    rfl
  · intro hn
    subst hn
    unfold HTTPExecutor.thread_pool_size post_max_workers
    rw [if_neg (by omega : ¬ count = 0)]

/-- Witness for the amended C8: an explicit request of 50 workers for 3
endpoints is used unchanged, and the default for 5 endpoints is
`min 10 5`. -/
theorem C8_pool_size_witness :
    HTTPExecutor.thread_pool_size (post_max_workers (Option.some 50) 3) = 50 ∧
    HTTPExecutor.thread_pool_size (post_max_workers Option.none 5) = min 10 5 :=
  ⟨(C8_pool_size (Option.some 50) 3 (by norm_num)).1 50 rfl,
   (C8_pool_size Option.none 5 (by norm_num)).2 rfl⟩

/-- A truthy value is not `None`. -/
theorem PyVal.truthy_not_isNone (v : PyVal) (h : v.truthy = true) : v.isNone = false := by
  cases v <;> simp_all [PyVal.truthy, PyVal.isNone]

/-- A value whose `is None` test holds is `None`. -/
theorem PyVal.isNone_eq (v : PyVal) (h : v.isNone = true) : v = PyVal.none := by
  cases v <;> simp_all [PyVal.isNone]

/-- A descriptor carrying both an explicit `body` and a truthy `json`
field, used to decide the precedence claim. -/
def bothFieldsConfig : PyVal :=
  .dict [("url", .str "http://x"), ("body", .str "raw-body"),
         ("json", .dict [("k", .int 1)])]

/-- The configuration `from_config` builds from `bothFieldsConfig`. -/
def bothFieldsResolved : EndpointConfig :=
  ⟨.str "http://x", "POST", .dict [], .str "raw-body", .dict [("k", .int 1)],
   .dict [], .int 30⟩

/-- C6 counterexample: on a descriptor carrying both a `body` and a truthy
`json` field, the resolved request payload is the `json` field — the code
computes `body = endpoint_config.json_data or endpoint_config.body` — not
the `body` field the claim gives precedence to. -/
theorem C6_counterexample :
    EndpointConfig.from_config bothFieldsConfig = Except.ok bothFieldsResolved ∧
    bothFieldsResolved.body = .str "raw-body" ∧
    bothFieldsResolved.json_data = .dict [("k", .int 1)] ∧
    HTTPExecutor.resolve_body bothFieldsResolved .none = .dict [("k", .int 1)] ∧
    HTTPExecutor.resolve_body bothFieldsResolved .none ≠ PyVal.str "raw-body" := by
  refine ⟨rfl, rfl, rfl, rfl, fun h => ?_⟩
  exact PyVal.noConfusion h

/-- C6 amended: a truthy `json` field takes precedence over `body`
(Python's `or` returns its left operand when truthy); when `json` is falsy
the `body` field is used; only when the resulting body is `None` and the
request-level default payload is truthy is the default substituted, and a
falsy default is never substituted. -/
theorem C6_body_selection (cfg : EndpointConfig) (dp : PyVal) :
    (cfg.json_data.truthy = true →
      HTTPExecutor.resolve_body cfg dp = cfg.json_data) ∧
    (cfg.json_data.truthy = false → cfg.body.isNone = false →
      HTTPExecutor.resolve_body cfg dp = cfg.body) ∧
    (cfg.json_data.truthy = false → cfg.body.isNone = true → dp.truthy = true →
      HTTPExecutor.resolve_body cfg dp = dp) ∧
    (cfg.json_data.truthy = false → cfg.body.isNone = true → dp.truthy = false →
      HTTPExecutor.resolve_body cfg dp = PyVal.none) := by
  refine ⟨?_, ?_, ?_, ?_⟩
  · intro hj
    have hn := PyVal.truthy_not_isNone cfg.json_data hj
    simp [HTTPExecutor.resolve_body, hj, hn]
  · intro hj hb
    simp [HTTPExecutor.resolve_body, hj, hb]
  · intro hj hb hdp
    simp [HTTPExecutor.resolve_body, hj, hb, hdp]
  · intro hj hb hdp
    have hb0 := PyVal.isNone_eq cfg.body hb
    simp [HTTPExecutor.resolve_body, hj, hb, hdp, hb0]

/-- Witness for the amended C6: on the two-field descriptor's config the
resolved payload is the `json` field. -/
theorem C6_body_selection_witness :
    HTTPExecutor.resolve_body bothFieldsResolved PyVal.none =
      bothFieldsResolved.json_data :=
  (C6_body_selection bothFieldsResolved PyVal.none).1 rfl

/-- A transport oracle whose every call succeeds with status 200. -/
def okNet : HttpRequest → TransportOutcome := fun _ => .response 200 .none

/-- A transport oracle whose every call fails with a connection error. -/
def failNet : HttpRequest → TransportOutcome := fun _ => .failure "connection refused"

/-- C4 counterexample: a mapping descriptor whose `method` field is not a
string makes `from_config` raise `AttributeError`, which
`execute_single_endpoint` does not catch (it catches only
`RequestException` and `ValueError`): the exception escapes the runner's
boundary instead of becoming an `ERROR` result. -/
theorem C4_counterexample :
    HTTPExecutor.execute_single_endpoint okNet 0
        (.dict [("url", .str "http://x"), ("method", .int 123)]) .none =
      Except.error (.attributeError "int object has no attribute upper") :=
  rfl

/-- C4 amended: the runner never raises for the failures it anticipates —
the `ValueError` of an unsupported descriptor becomes an `ERROR` result
named `endpoint_<idx>` carrying the message, and a transport-level
`RequestException` becomes an `ERROR` result carrying the endpoint's URL
(or the positional fallback name when the URL is falsy) and the failure
message; an exception of any other type, such as the `AttributeError`
from a non-string `method` field, propagates past the boundary. -/
theorem C4_error_capture (net : HttpRequest → TransportOutcome) (idx : Nat)
    (raw : PyVal) (dp : PyVal) :
    (∀ msg, EndpointConfig.from_config raw = Except.error (.valueError msg) →
      HTTPExecutor.execute_single_endpoint net idx raw dp =
        Except.ok (ExecutionStatus.ERROR,
          ExecutionResult.from_error (.str ("endpoint_" ++ toString idx)) msg)) ∧
    (∀ cfg msg, EndpointConfig.from_config raw = Except.ok cfg →
      net (HTTPExecutor.execute_request cfg dp) = TransportOutcome.failure msg →
      HTTPExecutor.execute_single_endpoint net idx raw dp =
        Except.ok (ExecutionStatus.ERROR,
          ExecutionResult.from_error
            (if cfg.url.truthy then cfg.url
             else .str ("endpoint_" ++ toString idx)) msg)) := by
  constructor
  · intro msg h
    unfold HTTPExecutor.execute_single_endpoint
    rw [h]
  · intro cfg msg h hn
    unfold HTTPExecutor.execute_single_endpoint
    rw [h]
    simp only []
    rw [hn]

/-- Witness for the amended C4: a numeric-list descriptor is captured as
an invalid-configuration `ERROR` with the fallback name, and a refused
connection is captured as an `ERROR` carrying the endpoint URL. -/
theorem C4_error_capture_witness :
    HTTPExecutor.execute_single_endpoint failNet 7 (.list []) .none =
      Except.ok (ExecutionStatus.ERROR,
        ExecutionResult.from_error (.str "endpoint_7")
          "Invalid endpoint configuration type: list") ∧
    HTTPExecutor.execute_single_endpoint failNet 2 (.str "http://down") .none =
      Except.ok (ExecutionStatus.ERROR,
        ExecutionResult.from_error (.str "http://down") "connection refused") :=
  ⟨(C4_error_capture failNet 7 (.list []) .none).1
      "Invalid endpoint configuration type: list" rfl,
   (C4_error_capture failNet 2 (.str "http://down") .none).2
      ⟨.str "http://down", "POST", .dict [], .none, .none, .dict [], .int 30⟩
      "connection refused" rfl rfl⟩

/-- `get_http_status` in terms of the counts it inspects. -/
theorem get_http_status_spec (s : ExecutionSummary) :
    s.get_http_status =
      (if 0 < s.failed then (500 : Int)
       else if 0 < s.warnings then 207 else 200) := by
  unfold ExecutionSummary.get_http_status ExecutionSummary.has_errors
    ExecutionSummary.has_warnings
  by_cases h1 : 0 < s.failed <;> by_cases h2 : 0 < s.warnings <;> simp [h1, h2]

/-- `success` in terms of the counts it inspects. -/
theorem success_spec (s : ExecutionSummary) :
    s.success = true ↔ s.warnings = 0 ∧ s.failed = 0 := by
  unfold ExecutionSummary.success
  constructor
  · intro h
    simp at h
    exact ⟨h.2, h.1⟩
  · intro h
    simp [h.1, h.2]

/-- A transport oracle whose every call answers `207`. -/
def warnNet : HttpRequest → TransportOutcome := fun _ => .response 207 .none

/-- C3 counterexample: a `GET /execute` run whose single endpoint answers
`207` produces one `WARNING` result and no `ERROR`, yet the GET handler
responds `200` with `success = true` — not the `207` / `false` the claim
requires for an execution with a warning and no error. -/
theorem C3_counterexample :
    HTTPExecutor.execute warnNet [] [.str "http://x/warn"] false .none =
      Except.ok ([],
        [ExecutionResult.from_response (.str "http://x/warn") "POST" 207 .none],
        []) ∧
    (ExecutionResult.from_response (.str "http://x/warn") "POST" 207 .none).status =
      ExecutionStatus.WARNING ∧
    execute_endpoints_get warnNet [.str "http://x/warn"] = (200, true) :=
  ⟨rfl, rfl, rfl⟩

/-- C3 amended: the `POST /execute` response status is `500` when any
result is `ERROR`, else `207` when any is `WARNING`, else `200`, and its
`success` flag is true exactly when both the warning and the error counts
are zero; the `GET /execute` response, however, ignores warnings: its
status is `500` exactly when the error bucket is non-empty — `200`
otherwise, warnings included — and its `success` flag is true exactly
when there are no errors. -/
theorem C3_execute_status (net : HttpRequest → TransportOutcome) (order : List Nat)
    (endpoints : List PyVal) (parallel : Bool) (dp : PyVal)
    (summary : ExecutionSummary) (status : Int) :
    (execute_endpoints_post net order endpoints parallel dp =
        Except.ok (summary, status) →
      status = (if 0 < summary.failed then (500 : Int)
                else if 0 < summary.warnings then 207 else 200) ∧
      (summary.success = true ↔ summary.warnings = 0 ∧ summary.failed = 0)) ∧
    (∀ s w e, endpoints ≠ [] →
      HTTPExecutor.execute net [] endpoints false .none = Except.ok (s, w, e) →
      execute_endpoints_get net endpoints =
        (if e.length = 0 then 200 else 500, e.length == 0)) := by
  constructor
  · intro h
    unfold execute_endpoints_post at h
    cases hx : HTTPExecutor.execute net order endpoints parallel dp with
    | error exc => rw [hx] at h; simp at h
    | ok t =>
      obtain ⟨s, w, e⟩ := t
      rw [hx] at h
      simp only [Except.ok.injEq, Prod.mk.injEq] at h
      obtain ⟨h1, h2⟩ := h
      subst h1
      subst h2
      exact ⟨get_http_status_spec _, success_spec _⟩
  · intro s w e hne hx
    unfold execute_endpoints_get
    rw [if_neg (fun hz => hne (List.length_eq_zero.mp hz)), hx]

/-- Witness for the amended C3: the warning-only run gives the POST path
status `207` with `success = false`, while the GET path answers `200`
with `success = true`. -/
theorem C3_execute_status_witness :
    ((207 : Int) =
      (if 0 < (build_summary [.str "http://x/warn"] false []
                 [ExecutionResult.from_response (.str "http://x/warn") "POST" 207 .none]
                 []).failed then (500 : Int)
       else if 0 < (build_summary [.str "http://x/warn"] false []
                 [ExecutionResult.from_response (.str "http://x/warn") "POST" 207 .none]
                 []).warnings then 207 else 200) ∧
      ((build_summary [.str "http://x/warn"] false []
          [ExecutionResult.from_response (.str "http://x/warn") "POST" 207 .none]
          []).success = true ↔
        (build_summary [.str "http://x/warn"] false []
          [ExecutionResult.from_response (.str "http://x/warn") "POST" 207 .none]
          []).warnings = 0 ∧
        (build_summary [.str "http://x/warn"] false []
          [ExecutionResult.from_response (.str "http://x/warn") "POST" 207 .none]
          []).failed = 0)) ∧
    execute_endpoints_get warnNet [.str "http://x/warn"] = ((200 : Int), true) :=
  ⟨(C3_execute_status warnNet [] [.str "http://x/warn"] false PyVal.none
      (build_summary [.str "http://x/warn"] false []
        [ExecutionResult.from_response (.str "http://x/warn") "POST" 207 .none] [])
      207).1 rfl,
   (C3_execute_status warnNet [] [.str "http://x/warn"] false PyVal.none
      (build_summary [.str "http://x/warn"] false []
        [ExecutionResult.from_response (.str "http://x/warn") "POST" 207 .none] [])
      207).2 []
      [ExecutionResult.from_response (.str "http://x/warn") "POST" 207 .none] []
      (by simp) rfl⟩

/-- C1: whenever the executor completes — in either mode, for every
transport behaviour, every default payload, and every completion order
that is a permutation of the endpoint indices — the summary built from
its three buckets satisfies `total == successful + warnings + failed`,
and every result lies in exactly one bucket, the one matching its
classification. -/
theorem C1_summary_invariant (net : HttpRequest → TransportOutcome) (order : List Nat)
    (endpoints : List PyVal) (parallel : Bool) (dp : PyVal)
    (s w e : List ExecutionResult)
    (hperm : order.Perm (List.range endpoints.length))
    (hok : HTTPExecutor.execute net order endpoints parallel dp = Except.ok (s, w, e)) :
    (build_summary endpoints parallel s w e).total_endpoints =
      (build_summary endpoints parallel s w e).successful +
        (build_summary endpoints parallel s w e).warnings +
        (build_summary endpoints parallel s w e).failed ∧
    (∀ r ∈ s, r.status = ExecutionStatus.SUCCESS) ∧
    (∀ r ∈ w, r.status = ExecutionStatus.WARNING) ∧
    (∀ r ∈ e, r.status = ExecutionStatus.ERROR) ∧
    (∀ r, ¬(r ∈ s ∧ r ∈ w)) ∧ (∀ r, ¬(r ∈ s ∧ r ∈ e)) ∧
    (∀ r, ¬(r ∈ w ∧ r ∈ e)) := by
  have key : ∃ rs : List ExecutionResult,
      rs.length = endpoints.length ∧
      s = rs.filter (hasStatus .SUCCESS) ∧
      w = rs.filter (hasStatus .WARNING) ∧
      e = rs.filter (hasStatus .ERROR) := by
    unfold HTTPExecutor.execute at hok
    by_cases hc : parallel = false ∨ endpoints.length ≤ 1
    · rw [if_pos hc] at hok
      unfold HTTPExecutor.execute_sequential at hok
      rw [execute_sequential_go_eq] at hok
      cases hs : sequential_results net dp 0 endpoints with
      | error exc => rw [hs] at hok; simp [Except.map] at hok
      | ok rs =>
        rw [hs] at hok
        simp only [Except.map, bucketize, Except.ok.injEq, Prod.mk.injEq] at hok
        obtain ⟨h1, h2, h3⟩ := hok
        exact ⟨rs, sequential_results_length net dp endpoints 0 rs hs,
               h1.symm, h2.symm, h3.symm⟩
    · rw [if_neg hc] at hok
      unfold HTTPExecutor.execute_parallel at hok
      rw [execute_parallel_go_eq] at hok
      cases hs : parallel_results net dp endpoints order with
      | error exc => rw [hs] at hok; simp [Except.map] at hok
      | ok rs =>
        rw [hs] at hok
        simp only [Except.map, bucketize, Except.ok.injEq, Prod.mk.injEq] at hok
        obtain ⟨h1, h2, h3⟩ := hok
        have hlen : rs.length = order.length :=
          parallel_results_length net dp endpoints order rs
            (fun i hi => by
              have hmem : i ∈ List.range endpoints.length := hperm.mem_iff.mp hi
              simpa using hmem) hs
        have hlen2 : rs.length = endpoints.length := by
          rw [hlen, hperm.length_eq, List.length_range]
        exact ⟨rs, hlen2, h1.symm, h2.symm, h3.symm⟩
  obtain ⟨rs, hlen, hs, hw, he⟩ := key
  subst hs
  subst hw
  subst he
  refine ⟨?_, ?_, ?_, ?_, ?_, ?_, ?_⟩
  · simp only [build_summary]
    rw [← hlen]
    exact (bucketize_length_sum rs).symm
  · intro r hr
    exact mem_bucket_status _ rs r hr
  · intro r hr
    exact mem_bucket_status _ rs r hr
  · intro r hr
    exact mem_bucket_status _ rs r hr
  · rintro r ⟨ha, hb⟩
    have e1 := mem_bucket_status _ rs r ha
    have e2 := mem_bucket_status _ rs r hb
    rw [e1] at e2
    exact ExecutionStatus.noConfusion e2
  · rintro r ⟨ha, hb⟩
    have e1 := mem_bucket_status _ rs r ha
    have e2 := mem_bucket_status _ rs r hb
    rw [e1] at e2
    exact ExecutionStatus.noConfusion e2
  · rintro r ⟨ha, hb⟩
    have e1 := mem_bucket_status _ rs r ha
    have e2 := mem_bucket_status _ rs r hb
    rw [e1] at e2
    exact ExecutionStatus.noConfusion e2

/-- A transport oracle that accepts `http://x/ok` with `200` and answers
`500` on every other URL. -/
def mixNet : HttpRequest → TransportOutcome := fun req =>
  match req.url with
  | .str u => if u = "http://x/ok" then .response 200 .none else .response 500 .none
  | _ => .failure "connection refused"

/-- Endpoint descriptors used by the concrete executor runs below. -/
def witnessEndpoints : List PyVal := [.str "http://x/ok", .str "http://x/err"]

/-- The `SUCCESS` result `mixNet` yields for the first witness endpoint. -/
def witnessOk : ExecutionResult :=
  ExecutionResult.from_response (.str "http://x/ok") "POST" 200 .none

/-- The `ERROR` result `mixNet` yields for the second witness endpoint. -/
def witnessErr : ExecutionResult :=
  ExecutionResult.from_response (.str "http://x/err") "POST" 500 .none

/-- Witness for C1: a concrete parallel run of two endpoints with
completion order `[1, 0]`, one success and one error. -/
theorem C1_summary_invariant_witness :
    (build_summary witnessEndpoints true [witnessOk] [] [witnessErr]).total_endpoints =
      (build_summary witnessEndpoints true [witnessOk] [] [witnessErr]).successful +
        (build_summary witnessEndpoints true [witnessOk] [] [witnessErr]).warnings +
        (build_summary witnessEndpoints true [witnessOk] [] [witnessErr]).failed :=
  (C1_summary_invariant mixNet [1, 0] witnessEndpoints true PyVal.none
    [witnessOk] [] [witnessErr] (by decide) rfl).1

/-- C9: when `parallel` is false or there is at most one endpoint, the
executor takes the strictly sequential path — the input list traversed in
order from index `0` — and each bucket is the classification filter of
the input-order result list, so results keep their input relative order
within every bucket. -/
theorem C9_sequential_ordering (net : HttpRequest → TransportOutcome) (order : List Nat)
    (endpoints : List PyVal) (parallel : Bool) (dp : PyVal)
    (hmode : parallel = false ∨ endpoints.length ≤ 1) :
    HTTPExecutor.execute net order endpoints parallel dp =
      HTTPExecutor.execute_sequential net endpoints dp ∧
    (∀ s w e, HTTPExecutor.execute_sequential net endpoints dp = Except.ok (s, w, e) →
      ∃ rs, sequential_results net dp 0 endpoints = Except.ok rs ∧
        s = rs.filter (hasStatus .SUCCESS) ∧
        w = rs.filter (hasStatus .WARNING) ∧
        e = rs.filter (hasStatus .ERROR)) := by
  constructor
  · unfold HTTPExecutor.execute
    rw [if_pos hmode]
  · intro s w e h
    unfold HTTPExecutor.execute_sequential at h
    rw [execute_sequential_go_eq] at h
    cases hs : sequential_results net dp 0 endpoints with
    | error exc => rw [hs] at h; simp [Except.map] at h
    | ok rs =>
      rw [hs] at h
      simp only [Except.map, bucketize, Except.ok.injEq, Prod.mk.injEq] at h
      obtain ⟨h1, h2, h3⟩ := h
      exact ⟨rs, rfl, h1.symm, h2.symm, h3.symm⟩

/-- Witness for C9: with `parallel = false` the executor's output on the
two witness endpoints is the sequential one, whatever completion order a
parallel run would have used. -/
theorem C9_sequential_ordering_witness :
    HTTPExecutor.execute mixNet [1, 0] witnessEndpoints false PyVal.none =
      HTTPExecutor.execute_sequential mixNet witnessEndpoints PyVal.none :=
  (C9_sequential_ordering mixNet [1, 0] witnessEndpoints false PyVal.none
    (Or.inl rfl)).1

end SchedulerRunner
